import Mathlib

/-!
Verification of core components of a container image distribution library:
the storage-driver base middleware (path/offset validation), the recursive
Walk traversal, the upload purger, the in-memory layer store, the client
pull-layer routine and the windowed pull scheduler, and the blob server's
header handling.  Each definition is a shallow embedding of the
corresponding Go function.
-/

/-! ## Path grammar and base middleware

`PathRegexp = ^(/[A-Za-z0-9._-]+)+$` from the storage driver contract.
A path is a nonempty sequence of groups, each a slash followed by a
nonempty run of allowed characters.
-/

/-- Characters allowed inside one path component: `[A-Za-z0-9._-]`. -/
def isPathChar (c : Char) : Bool :=
  (('A' ≤ c && c ≤ 'Z') || ('a' ≤ c && c ≤ 'z') || ('0' ≤ c && c ≤ '9')
    || c = '.' || c = '_' || c = '-')

mutual

/-- After a slash: the component must start with at least one path character. -/
def checkAfterSlash : List Char → Bool
  | [] => false
  | c :: rest => if isPathChar c then checkRest rest else false

/-- Inside a component: more path characters, or a slash opening the next
component, or the end of the string. -/
def checkRest : List Char → Bool
  | [] => true
  | c :: rest =>
    if c = '/' then checkAfterSlash rest
    else if isPathChar c then checkRest rest
    else false

end

/-- `PathRegexp.MatchString`: the string matches `^(/[A-Za-z0-9._-]+)+$`. -/
def pathRegexpMatch (s : String) : Bool :=
  match s.data with
  | [] => false
  | c :: rest => if c = '/' then checkAfterSlash rest else false

/-- Outcome of one call through the `Base` middleware: either a validation
error returned before the inner driver is touched, or the call is forwarded
to the wrapped driver. -/
inductive BaseOutcome where
  | invalidPath
  | invalidOffset
  | forwarded
  deriving DecidableEq, Repr

/-- `Base.GetContent`: path check then forward. -/
def baseGetContent (path : String) : BaseOutcome :=
  if !pathRegexpMatch path then .invalidPath else .forwarded

/-- `Base.PutContent`: path check then forward. -/
def basePutContent (path : String) : BaseOutcome :=
  if !pathRegexpMatch path then .invalidPath else .forwarded

/-- `Base.ReadStream`: offset check first, then path check, then forward. -/
def baseReadStream (path : String) (offset : Int) : BaseOutcome :=
  if offset < 0 then .invalidOffset
  else if !pathRegexpMatch path then .invalidPath
  else .forwarded

/-- `Base.WriteStream`: offset check first, then path check, then forward. -/
def baseWriteStream (path : String) (offset : Int) : BaseOutcome :=
  if offset < 0 then .invalidOffset
  else if !pathRegexpMatch path then .invalidPath
  else .forwarded

/-- `Base.Stat`: path check then forward. -/
def baseStat (path : String) : BaseOutcome :=
  if !pathRegexpMatch path then .invalidPath else .forwarded

/-- `Base.List`: the literal root "/" is additionally permitted. -/
def baseList (path : String) : BaseOutcome :=
  if !pathRegexpMatch path && path ≠ "/" then .invalidPath else .forwarded

/-- `Base.Move`: both paths are checked, source first. -/
def baseMove (sourcePath destPath : String) : BaseOutcome :=
  if !pathRegexpMatch sourcePath then .invalidPath
  else if !pathRegexpMatch destPath then .invalidPath
  else .forwarded

/-- `Base.Delete`: path check then forward. -/
def baseDelete (path : String) : BaseOutcome :=
  if !pathRegexpMatch path then .invalidPath else .forwarded

/-- `Base.URLFor`: path check then forward. -/
def baseURLFor (path : String) : BaseOutcome :=
  if !pathRegexpMatch path then .invalidPath else .forwarded

/-! ## Recursive Walk (registry/storage walk)

The driver namespace is modelled as a finite tree.  `Walk` lists the
children of a node, stats each child, calls `f` on it, and handles the
`ErrSkipDir` sentinel.  As in the source, the return value of the
recursive `Walk` call on a subdirectory is discarded.
-/

/-- A node of the driver's namespace: a file or a directory with children.
Paths are irrelevant to the traversal logic; each node carries an
identifier used by the callback. -/
inductive FsNode (α : Type) where
  | file (info : α)
  | dir (info : α) (children : List (FsNode α))
  deriving Repr

/-- The `FileInfo` handed to the callback. -/
def FsNode.info : FsNode α → α
  | .file i => i
  | .dir i _ => i

/-- `FileInfo.IsDir`. -/
def FsNode.isDir : FsNode α → Bool
  | .file _ => false
  | .dir _ _ => true

/-- Result of the callback `f`: nil, the `ErrSkipDir` sentinel, or any
other error. -/
inductive WalkFnRes (ε : Type) where
  | nilErr
  | skipDir
  | err (e : ε)
  deriving DecidableEq, Repr

/-- `Walk(ctx, driver, from, f)` over the children of `from`, returning
`none` for a nil error.  Mirrors the source line by line: on `ErrSkipDir`
the directory is not entered; on any other error the loop returns it; on a
directory without skip, the recursive call's error is DISCARDED (the
source calls `Walk(ctx, driver, child, f)` without using its result). -/
def walkChildren (f : α → WalkFnRes ε) : List (FsNode α) → Option ε
  | [] => none
  | child :: rest =>
    match f child.info with
    | .skipDir => walkChildren f rest
    | .err e => some e
    | .nilErr =>
      match child with
      | .file _ => walkChildren f rest
      | .dir _ cs =>
        let _ := walkChildren f cs
        walkChildren f rest

/-- `Walk` starting at a directory node. -/
def walk (f : α → WalkFnRes ε) : FsNode α → Option ε
  | .file _ => none
  | .dir _ children => walkChildren f children

/-- The nodes visited by the traversal (each child is visited, and the
subtree of a directory is visited unless the callback said skip or
returned an error; after a non-skip error nothing further is visited). -/
def walkVisits (f : α → WalkFnRes ε) : List (FsNode α) → List α
  | [] => []
  | child :: rest =>
    match f child.info with
    | .skipDir => child.info :: walkVisits f rest
    | .err _ => [child.info]
    | .nilErr =>
      match child with
      | .file _ => child.info :: walkVisits f rest
      | .dir _ cs => child.info :: (walkVisits f cs ++ walkVisits f rest)

/-! ## Upload purger (registry/storage purgeuploads)

Timestamps are natural numbers counting hours.  `newUploadData` defaults
`startedAt` to `now + 10000` hours, as in the source
(`time.Now().Add(time.Duration(10000 * time.Hour))`).
-/

/-- `uploadData`: the containing directory of an upload and the time the
upload started. -/
structure UploadData where
  containingDir : String
  startedAt : Nat
  deriving DecidableEq, Repr

/-- `newUploadData`: fresh record whose `startedAt` defaults to far in the
future to protect against a missing `startedat` file. -/
def newUploadData (now : Nat) : UploadData :=
  { containingDir := ""
    startedAt := now + 10000 }

/-- The observable facts about one upload session in the `_uploads`
subtree: its containing directory and the content of its `startedat`
file — `none` when the file is missing, `some none` when present but not
parseable as RFC3339, `some (some t)` when it parses to `t`. -/
structure UploadSource where
  containingDir : String
  startedatFile : Option (Option Nat)
  deriving Repr

/-- The `uploadData` record accumulated by `getOutstandingUploads` for one
upload session: the containing directory is recorded, and `startedAt` is
overwritten by the parsed `startedat` content only when the file exists
and parses; otherwise the far-future default of `newUploadData` stays. -/
def outstandingRecord (now : Nat) (u : UploadSource) : UploadData :=
  { containingDir := u.containingDir
    startedAt :=
      match u.startedatFile with
      | some (some t) => t
      | _ => (newUploadData now).startedAt }

/-- `getOutstandingUploads` over an abstract upload subtree: one record
per upload session. -/
def getOutstandingUploads (now : Nat) (us : List UploadSource) : List UploadData :=
  us.map (outstandingRecord now)

/-- What `PurgeUploads` did: the directories reported as deleted and the
directories actually passed to `driver.Delete`. -/
structure PurgeResult where
  deleted : List String
  deleteCalls : List String
  deriving DecidableEq, Repr

/-- The loop of `PurgeUploads` over the collected records: a record whose
`startedAt` is strictly before `olderThan` has its containing directory
deleted (when `actuallyDelete`) and reported; `driver.Delete` is modelled
as always succeeding, so the error branch that would divert the directory
into the error list is never taken. -/
def purgeLoop (olderThan : Nat) (actuallyDelete : Bool) : List UploadData → PurgeResult
  | [] => { deleted := [], deleteCalls := [] }
  | ud :: rest =>
    let r := purgeLoop olderThan actuallyDelete rest
    if ud.startedAt < olderThan then
      { deleted := ud.containingDir :: r.deleted
        deleteCalls :=
          if actuallyDelete then ud.containingDir :: r.deleteCalls
          else r.deleteCalls }
    else r

/-- `PurgeUploads(ctx, driver, olderThan, actuallyDelete)` over an
abstract upload subtree observed at time `now`. -/
def purgeUploads (now : Nat) (us : List UploadSource)
    (olderThan : Nat) (actuallyDelete : Bool) : PurgeResult :=
  purgeLoop olderThan actuallyDelete (getOutstandingUploads now us)

/-! ## In-memory layer (client memory object store)

`memoryLayer` holds contents (nil until a writer ever existed), the
expected size and the writing flag.  Every method runs under the layer's
condition mutex, so the methods are modelled as atomic state transitions.
Byte contents are modelled as lists of naturals; the Go `int` sizes are
modelled as `Int`.
-/

/-- `memoryLayer`: `contents == none` models the nil slice. -/
structure MemoryLayer where
  contents : Option (List Nat)
  expectedSize : Int
  writing : Bool
  deriving DecidableEq, Repr

/-- A freshly allocated layer (`&memoryLayer{cond: ...}`): nil contents,
zero expected size, not writing. -/
def MemoryLayer.empty : MemoryLayer :=
  { contents := none, expectedSize := 0, writing := false }

/-- Errors a `Writer` request can produce on the in-memory layer. -/
inductive LayerErr where
  | locked
  | alreadyExists
  | closedForWriting
  | sizeUnset
  deriving DecidableEq, Repr

/-- `memoryLayer.Writer()`: on present contents, a set writing flag means
`ErrLayerLocked` and a length matching the expected size means
`ErrLayerAlreadyExists`; otherwise (including nil contents, which are
allocated to a zero-length slice) the writing flag is set and a writer is
granted. -/
def MemoryLayer.writer (ml : MemoryLayer) : Except LayerErr Unit × MemoryLayer :=
  match ml.contents with
  | some cs =>
    if ml.writing then (.error .locked, ml)
    else if ml.expectedSize = (cs.length : Int) then (.error .alreadyExists, ml)
    else (.ok (), { ml with writing := true })
  | none =>
    (.ok (), { contents := some [], expectedSize := ml.expectedSize, writing := true })

/-- `memoryLayerWriter.Close` (via the locked `close`): clears the writing
flag and broadcasts; always returns nil. -/
def MemoryLayer.close (ml : MemoryLayer) : MemoryLayer :=
  { ml with writing := false }

/-- `memoryLayerWriter.CurrentSize`: `len(mlw.ml.contents)` (the length of
a nil slice is 0). -/
def MemoryLayer.currentSize (ml : MemoryLayer) : Int :=
  ((ml.contents.getD []).length : Int)

/-- `memoryLayerWriter.Size`: the expected size. -/
def MemoryLayer.size (ml : MemoryLayer) : Int :=
  ml.expectedSize

/-- `memoryLayerWriter.SetSize`: fails when the layer is closed for
writing, otherwise records the expected size. -/
def MemoryLayer.setSize (ml : MemoryLayer) (sz : Int) : Except LayerErr Unit × MemoryLayer :=
  if !ml.writing then (.error .closedForWriting, ml)
  else (.ok (), { ml with expectedSize := sz })

/-- `memoryLayerWriter.Write`: refuses while the expected size is 0,
otherwise appends to the buffer and publishes it as the contents. -/
def MemoryLayer.write (ml : MemoryLayer) (p : List Nat) : Except LayerErr Nat × MemoryLayer :=
  if ml.expectedSize = 0 then (.error .sizeUnset, ml)
  else (.ok p.length, { ml with contents := some ((ml.contents.getD []) ++ p) })

/-- States of the in-memory layer that actually arise: the writing flag is
only ever set together with allocated contents. -/
def MemoryLayer.WF (ml : MemoryLayer) : Prop :=
  ml.writing = true → ml.contents.isSome

/-! ## Client pull-layer routine (client pull)

`pullLayer` asks the object store for the layer, requests a `Writer`, and
routes the two coordination sentinels `ErrLayerAlreadyExists` and
`ErrLayerLocked`; only with a granted writer does the transfer of bytes
(lines 122-168 of the source, abstracted here as `transfer`) begin.
-/

/-- The outcome of the `layer.Writer()` call as seen by `pullLayer`: the
two sentinels, any other error, or a granted writer handle. -/
inductive WriterOutcome (ε ω : Type) where
  | alreadyExists
  | locked
  | err (e : ε)
  | ok (w : ω)
  deriving DecidableEq, Repr

/-- The observable behaviour of one `pullLayer` call: its returned error
(`none` = nil), whether it called `layer.Wait()`, and whether it started
transferring bytes (calling `GetBlob` and copying). -/
structure PullLayerRun (ε : Type) where
  result : Option ε
  waited : Bool
  transferStarted : Bool
  deriving DecidableEq, Repr

/-- `pullLayer(c, objectStore, name, fsLayer)` routing: an error from
`objectStore.Layer` propagates; `ErrLayerAlreadyExists` from `Writer()` is
success without transfer; `ErrLayerLocked` waits on the layer and is
success; any other `Writer()` error propagates; a granted writer runs the
download, whose result is `transfer w`. -/
def pullLayer (layerRes : Except ε Unit) (wres : WriterOutcome ε ω)
    (transfer : ω → Option ε) : PullLayerRun ε :=
  match layerRes with
  | .error e => { result := some e, waited := false, transferStarted := false }
  | .ok _ =>
    match wres with
    | .alreadyExists => { result := none, waited := false, transferStarted := false }
    | .locked => { result := none, waited := true, transferStarted := false }
    | .err e => { result := some e, waited := false, transferStarted := false }
    | .ok w => { result := transfer w, waited := false, transferStarted := true }

/-! ## Client pull scheduler (client pull)

The sliding-window loop of `Pull`.  Concurrency is resolved
deterministically: worker `i` computes `res i`, the result `pullLayer`
sends on `errChans[i]`, and the scheduler receives those results in
strictly increasing index order as in the source loop.
-/

/-- `simultaneousLayerPullWindow`. -/
def simultaneousLayerPullWindow : Nat := 4

/-- An error returned by `Pull`. -/
inductive PullErr (ε : Type) where
  | historyLengthMismatch
  | noLayers
  | layer (e : ε)
  | writeManifest (e : ε)
  deriving DecidableEq, Repr

/-- The observable behaviour of one `Pull` call: the returned error
(`none` = nil), whether the cancellation channel was closed, whether
`ObjectStore.WriteManifest` was called, and how many layer workers were
spawned before returning. -/
structure PullOutcome (ε : Type) where
  result : Option (PullErr ε)
  cancelClosed : Bool
  manifestWritten : Bool
  spawned : Nat
  deriving DecidableEq, Repr

/-- The loop `for i := 0; i < len(FSLayers)+W; i++` of `Pull` with `n`
layers: at step `i`, when `i - W ≥ 0` the scheduler receives the result of
layer `i - W`; a non-nil result closes the cancellation channel and
returns it at once.  Then, when `i < n`, worker `i` is spawned.  After the
loop, the manifest is written and `Pull` returns the `WriteManifest`
error `wm`.  `steps` counts the remaining iterations (`n + W` at entry). -/
def pullGo (res : Nat → Option ε) (n : Nat) (wm : Option ε) :
    Nat → Nat → Nat → PullOutcome ε
  | _i, sp, 0 =>
    match wm with
    | some e =>
      { result := some (.writeManifest e), cancelClosed := false
        manifestWritten := true, spawned := sp }
    | none =>
      { result := none, cancelClosed := false
        manifestWritten := true, spawned := sp }
  | i, sp, steps + 1 =>
    if simultaneousLayerPullWindow ≤ i then
      match res (i - simultaneousLayerPullWindow) with
      | some e =>
        { result := some (.layer e), cancelClosed := true
          manifestWritten := false, spawned := sp }
      | none =>
        if i < n then pullGo res n wm (i + 1) (sp + 1) steps
        else pullGo res n wm (i + 1) sp steps
    else
      if i < n then pullGo res n wm (i + 1) (sp + 1) steps
      else pullGo res n wm (i + 1) sp steps

/-- A manifest as `Pull` sees it: the parallel layer and history lists. -/
structure SignedManifest where
  fsLayers : List String
  history : List String
  deriving Repr

/-- `Pull(c, objectStore, name, tag)` once the manifest `m` has been
fetched: the shape validation, then the windowed transfer loop, then
`WriteManifest` (whose error is `wm`).  `res i` is the result worker `i`
would send. -/
def pull (m : SignedManifest) (res : Nat → Option ε) (wm : Option ε) : PullOutcome ε :=
  if m.fsLayers.length ≠ m.history.length then
    { result := some .historyLengthMismatch, cancelClosed := false
      manifestWritten := false, spawned := 0 }
  else if m.fsLayers.length = 0 then
    { result := some .noLayers, cancelClosed := false
      manifestWritten := false, spawned := 0 }
  else
    pullGo res m.fsLayers.length wm 0 0
      (m.fsLayers.length + simultaneousLayerPullWindow)

/-! ## Blob server header handling (registry/storage blobserver)

The fallback arm of `ServeBlob` taken when `URLFor` returns
`ErrUnsupportedMethod`.  Response headers are an association list;
`Header().Get` of an absent key is the empty string, as in Go. -/

/-- Response headers. -/
def Headers := List (String × String)

/-- `Header().Get`: first value for the key, or "" when absent. -/
def hGet (h : Headers) (k : String) : String :=
  match h.find? (fun p => p.1 = k) with
  | some p => p.2
  | none => ""

/-- `Header().Set`: replaces any existing value for the key.  The new
entry is prepended; since `hGet` reads the first entry for a key, this is
the replacement semantics of `http.Header.Set` as the handler observes
it. -/
def hSet (h : Headers) (k v : String) : Headers :=
  (k, v) :: h

/-- The blob descriptor fields `ServeBlob` uses. -/
structure Descriptor where
  digest : String
  mediaType : String
  length : Nat
  deriving Repr

/-- `blobCacheControlMaxAge` in seconds: 365 days. -/
def blobCacheControlMaxAgeSeconds : Nat := 365 * 24 * 60 * 60

/-- The source pattern `if w.Header().Get(k) == "" { w.Header().Set(k, v) }`. -/
def setIfAbsent (h : Headers) (k v : String) : Headers :=
  if hGet h k = "" then hSet h k v else h

/-- The header mutations of `ServeBlob`'s streaming fallback, in source
order: `ETag` and `Cache-Control` are set unconditionally;
`Docker-Content-Digest`, `Content-Type` and `Content-Length` only when
the current value is empty. -/
def serveBlobFallbackHeaders (desc : Descriptor) (h : Headers) : Headers :=
  setIfAbsent
    (setIfAbsent
      (setIfAbsent
        (hSet (hSet h "ETag" desc.digest) "Cache-Control"
          ("max-age=" ++ toString blobCacheControlMaxAgeSeconds))
        "Docker-Content-Digest" desc.digest)
      "Content-Type" desc.mediaType)
    "Content-Length" (toString desc.length)

/-- The namespace `/a` (a directory) containing the single file `/a/b`. -/
def walkDemoTree : FsNode String := .dir "root" [.dir "a" [.file "b"]]

/-- A callback failing with a non-nil, non-SkipDir error on `b` only. -/
def walkDemoF : String → WalkFnRes Unit :=
  fun s => if s = "b" then .err () else .nilErr

/-- An upload session whose `startedat` file is missing. -/
def purgeDemoUpload : UploadSource :=
  { containingDir := "/r/_uploads/u", startedatFile := none }

/-- Number of successful grants among `n` consecutive `Writer()` requests
on a layer (the layer's condition mutex serializes concurrent requests
into such a sequence; a request that fails leaves the state unchanged). -/
def writerSuccessCount (ml : MemoryLayer) : Nat → Nat
  | 0 => 0
  | n + 1 =>
    match ml.writer with
    | (.ok _, ml') => 1 + writerSuccessCount ml' n
    | (.error _, ml') => writerSuccessCount ml' n

/-- A layer whose writer recorded expected size 1 and wrote one byte. -/
def c7demoLayer : MemoryLayer :=
  { contents := some [5], expectedSize := 1, writing := true }

/-- Worker results where only layer 0 fails (with error `7`). -/
def c1res : Nat → Option Nat :=
  fun k => if k = 0 then some 7 else none

/-- A two-layer manifest with matching history length. -/
def c1manifest : SignedManifest :=
  { fsLayers := ["l0", "l1"], history := ["h0", "h1"] }

/-- A blob descriptor. -/
def c6desc : Descriptor :=
  { digest := "sha256:d", mediaType := "application/json", length := 2 }

/-! ## Theorems -/

/-- C4 counterexample: with a valid path and a negative offset,
`Base.ReadStream` rejects the call with `InvalidOffset`, not with
`InvalidPath` as the claim states. -/
theorem C4_readStream_negative_offset_is_invalidOffset :
    baseReadStream "/a" (-1) = BaseOutcome.invalidOffset
  ∧ BaseOutcome.invalidOffset ≠ BaseOutcome.invalidPath
  ∧ pathRegexpMatch "/a" = true := by
  decide

/-- C4 (amended): every Base operation forwards to the inner driver iff
its path arguments match `PathRegexp` (List additionally accepting the
literal "/") and any offset is non-negative; otherwise it returns
InvalidPath — or InvalidOffset when the offset is negative — without
invoking the inner driver. -/
theorem C4_base_middleware_validation (path src dst : String) (offset : Int) :
    ((baseGetContent path = .forwarded) ↔ pathRegexpMatch path = true)
  ∧ ((basePutContent path = .forwarded) ↔ pathRegexpMatch path = true)
  ∧ ((baseStat path = .forwarded) ↔ pathRegexpMatch path = true)
  ∧ ((baseDelete path = .forwarded) ↔ pathRegexpMatch path = true)
  ∧ ((baseURLFor path = .forwarded) ↔ pathRegexpMatch path = true)
  ∧ ((baseList path = .forwarded) ↔ (pathRegexpMatch path = true ∨ path = "/"))
  ∧ ((baseMove src dst = .forwarded) ↔
      (pathRegexpMatch src = true ∧ pathRegexpMatch dst = true))
  ∧ ((baseReadStream path offset = .forwarded) ↔
      (pathRegexpMatch path = true ∧ 0 ≤ offset))
  ∧ ((baseWriteStream path offset = .forwarded) ↔
      (pathRegexpMatch path = true ∧ 0 ≤ offset))
  ∧ (pathRegexpMatch path = false →
      baseGetContent path = .invalidPath ∧ basePutContent path = .invalidPath
    ∧ baseStat path = .invalidPath ∧ baseDelete path = .invalidPath
    ∧ baseURLFor path = .invalidPath)
  ∧ (pathRegexpMatch path = false → path ≠ "/" → baseList path = .invalidPath)
  ∧ (offset < 0 →
      baseReadStream path offset = .invalidOffset
    ∧ baseWriteStream path offset = .invalidOffset)
  ∧ (0 ≤ offset → pathRegexpMatch path = false →
      baseReadStream path offset = .invalidPath
    ∧ baseWriteStream path offset = .invalidPath)
  ∧ ((pathRegexpMatch src = false ∨ pathRegexpMatch dst = false) →
      baseMove src dst = .invalidPath) := by
  simp only [baseGetContent, basePutContent, baseStat, baseDelete, baseURLFor,
    baseList, baseMove, baseReadStream, baseWriteStream]
  refine ⟨?_, ?_, ?_, ?_, ?_, ?_, ?_, ?_, ?_, ?_, ?_, ?_, ?_, ?_⟩ <;>
    split_ifs <;> simp_all <;>
    first
    | assumption
    | omega
    | tauto
    | (cases hb : pathRegexpMatch path <;> simp_all)

/-- C2: the code violates the claim.  The callback returns a non-nil,
non-SkipDir error on the node `b`, which lies inside the nested
subdirectory `a` and is visited by the traversal, yet `Walk` returns nil:
the source discards the error of the recursive `Walk` call on a
subdirectory, contradicting the `WalkFn` documentation ("Otherwise Walk
will return").  By contrast the same error at top level does propagate. -/
theorem C2_walk_swallows_nested_error :
    walk walkDemoF walkDemoTree = none
  ∧ walkDemoF "b" = .err ()
  ∧ "b" ∈ walkVisits walkDemoF [.dir "a" [.file "b"]]
  ∧ walk walkDemoF (.dir "root" [.file "b"]) = some () := by
  refine ⟨?_, rfl, ?_, ?_⟩ <;>
    simp [walk, walkChildren, walkVisits, walkDemoF, walkDemoTree, FsNode.info,
      FsNode.isDir]

/-- The purge loop reports as deleted exactly the containing directories
of the records with `startedAt < olderThan`, and calls `driver.Delete` on
exactly those directories when `actuallyDelete` is set and on none
otherwise. -/
theorem purgeLoop_spec (olderThan : Nat) (b : Bool) (uds : List UploadData) :
    purgeLoop olderThan b uds =
      { deleted := (uds.filter (fun ud => ud.startedAt < olderThan)).map
          (fun ud => ud.containingDir)
        deleteCalls :=
          if b then
            (uds.filter (fun ud => ud.startedAt < olderThan)).map
              (fun ud => ud.containingDir)
          else [] } := by
  induction uds with
  | nil => cases b <;> simp [purgeLoop]
  | cons ud rest ih =>
    by_cases hlt : ud.startedAt < olderThan <;>
      cases b <;> simp [purgeLoop, ih, hlt]

/-- C3 counterexample: an upload with a missing `startedat` file keeps
the far-future default `now + 10000` hours, but for a cutoff beyond that
default (here `now = 0`, cutoff `10001`) `PurgeUploads` with
`actuallyDelete = true` does delete its containing directory — the claim's
"never deleted, for every cutoff value" fails. -/
theorem C3_far_future_default_is_deletable :
    (outstandingRecord 0 purgeDemoUpload).startedAt = 10000
  ∧ (purgeUploads 0 [purgeDemoUpload] 10001 true).deleteCalls = ["/r/_uploads/u"] := by
  constructor
  · rfl
  · decide

/-- C3 (amended): `PurgeUploads` with `actuallyDelete = true` deletes
exactly the containing directories of uploads whose recorded `startedat`
is strictly before the cutoff, and with `actuallyDelete = false` deletes
nothing while still reporting those directories; an upload whose
`startedat` file is missing or unparseable keeps the far-future default
(`now + 10000` hours) and is therefore not deleted for any cutoff that
does not exceed that default. -/
theorem C3_purge_uploads_deterministic (now olderThan : Nat)
    (us : List UploadSource) (u : UploadSource) :
    (purgeUploads now us olderThan true).deleteCalls =
      ((getOutstandingUploads now us).filter
        (fun ud => ud.startedAt < olderThan)).map (fun ud => ud.containingDir)
  ∧ (purgeUploads now us olderThan false).deleteCalls = []
  ∧ (∀ b : Bool, (purgeUploads now us olderThan b).deleted =
      ((getOutstandingUploads now us).filter
        (fun ud => ud.startedAt < olderThan)).map (fun ud => ud.containingDir))
  ∧ (u.startedatFile = none ∨ u.startedatFile = some none →
      (outstandingRecord now u).startedAt = (newUploadData now).startedAt)
  ∧ (olderThan ≤ now + 10000 → u.startedatFile = none ∨ u.startedatFile = some none →
      ¬ (outstandingRecord now u).startedAt < olderThan) := by
  refine ⟨?_, ?_, fun b => ?_, ?_, ?_⟩
  · simp [purgeUploads, purgeLoop_spec]
  · simp [purgeUploads, purgeLoop_spec]
  · cases b <;> simp [purgeUploads, purgeLoop_spec]
  · rintro (h | h) <;> simp [outstandingRecord, h, newUploadData]
  · rintro hcut (h | h) <;> simp [outstandingRecord, h, newUploadData] <;> omega

/-- A failing `Writer()` request leaves the layer unchanged. -/
theorem writer_error_state (ml : MemoryLayer) (e : LayerErr)
    (h : (ml.writer).1 = .error e) : (ml.writer).2 = ml := by
  unfold MemoryLayer.writer at *
  cases hc : ml.contents with
  | none => simp [hc] at h
  | some cs => simp [hc] at h ⊢; split_ifs at h ⊢ <;> simp_all

/-- A granted `Writer()` request sets the writing flag and leaves the
contents allocated. -/
theorem writer_ok_state (ml : MemoryLayer)
    (h : (ml.writer).1 = .ok ()) :
    ((ml.writer).2).writing = true ∧ ((ml.writer).2).contents.isSome := by
  unfold MemoryLayer.writer at *
  cases hc : ml.contents with
  | none => simp [hc]
  | some cs =>
    simp [hc] at h ⊢
    split_ifs at h ⊢
    all_goals simp_all

/-- A `Writer()` request on a layer with a set writing flag and allocated
contents is refused with `ErrLayerLocked`, unchanged. -/
theorem writer_locked_of_writing (ml : MemoryLayer)
    (hw : ml.writing = true) (hc : ml.contents.isSome) :
    ml.writer = (.error .locked, ml) := by
  obtain ⟨cs, hcs⟩ := Option.isSome_iff_exists.mp hc
  simp [MemoryLayer.writer, hcs, hw]

/-- No `Writer()` request ever succeeds on a layer with a set writing flag
and allocated contents. -/
theorem writerSuccessCount_of_locked (ml : MemoryLayer)
    (hw : ml.writing = true) (hc : ml.contents.isSome) :
    ∀ n, writerSuccessCount ml n = 0 := by
  intro n
  induction n with
  | zero => rfl
  | succ k ih =>
    unfold writerSuccessCount
    rw [writer_locked_of_writing ml hw hc]
    exact ih

/-- C5: while the writing flag is set a `Writer()` request returns
`ErrLayerLocked`; on present contents with the flag clear it returns
`ErrLayerAlreadyExists` exactly when the expected size equals the contents
length and otherwise grants a resumed writer; on an empty layer it
allocates zero-length contents and sets the flag.  Consequently a granted
writer leaves the layer refusing further writers, and any sequence of
`Writer()` requests (the serialization of concurrent requests) grants at
most one success. -/
theorem C5_writer_mutual_exclusion (ml : MemoryLayer) (hwf : ml.WF) :
    (ml.writing = true → ml.writer = (.error .locked, ml))
  ∧ (∀ cs, ml.contents = some cs → ml.writing = false →
        ((ml.expectedSize = (cs.length : Int)) →
          ml.writer = (.error .alreadyExists, ml))
      ∧ ((ml.expectedSize ≠ (cs.length : Int)) →
          ml.writer = (.ok (), { ml with writing := true })))
  ∧ (ml.contents = none →
      ml.writer =
        (.ok (), { contents := some [], expectedSize := ml.expectedSize,
                   writing := true }))
  ∧ (∀ ml', ml.writer = (.ok (), ml') → (ml'.writer).1 = .error .locked)
  ∧ (∀ n, writerSuccessCount ml n ≤ 1) := by
  refine ⟨?_, ?_, ?_, ?_, ?_⟩
  · intro hw
    exact writer_locked_of_writing ml hw (hwf hw)
  · intro cs hcs hw
    constructor <;> intro hsz <;> simp [MemoryLayer.writer, hcs, hw, hsz]
  · intro hc
    simp [MemoryLayer.writer, hc]
  · intro ml' hok
    have h1 : (ml.writer).1 = .ok () := by rw [hok]
    have h2 := writer_ok_state ml h1
    rw [hok] at h2
    exact congrArg Prod.fst (writer_locked_of_writing ml' h2.1 h2.2)
  · intro n
    cases n with
    | zero => simp [writerSuccessCount]
    | succ k =>
      unfold writerSuccessCount
      cases hw : ml.writer with
      | mk r ml' =>
        cases r with
        | ok u =>
          cases u
          have h1 : (ml.writer).1 = .ok () := by rw [hw]
          have h2 := writer_ok_state ml h1
          rw [hw] at h2
          simp [writerSuccessCount_of_locked ml' h2.1 h2.2 k]
        | error e =>
          have h1 : (ml.writer).1 = .error e := by rw [hw]
          have h2 := writer_error_state ml e h1
          rw [hw] at h2
          subst h2
          -- the failed request left the state unchanged; induct on k
          induction k with
          | zero => simp [writerSuccessCount]
          | succ k' ihk =>
            unfold writerSuccessCount
            rw [hw]
            exact ihk

/-- C5 witness: on the fresh empty layer a writer is granted, allocating
zero-length contents and setting the writing flag. -/
theorem C5_writer_mutual_exclusion_witness :
    MemoryLayer.empty.writer =
      (.ok (), { contents := some [], expectedSize := 0, writing := true }) :=
  (C5_writer_mutual_exclusion MemoryLayer.empty
    (by simp [MemoryLayer.WF, MemoryLayer.empty])).2.2.1 rfl

/-- C7: the code violates the claim.  A writer acquired on the empty layer
and closed without `SetSize` or any write completes the Writing→Complete
transition, yet the resulting layer has `CurrentSize() == Size() == 0`,
not `CurrentSize() == Size() > 0`: `Close` only clears the writing flag
and broadcasts, enforcing no size condition. -/
theorem C7_close_enforces_no_positive_size :
    ((MemoryLayer.empty.writer).1 = .ok ())
  ∧ ((MemoryLayer.empty.writer).2.close).writing = false
  ∧ ((MemoryLayer.empty.writer).2.close).currentSize =
      ((MemoryLayer.empty.writer).2.close).size
  ∧ ¬ (0 < ((MemoryLayer.empty.writer).2.close).size) := by
  refine ⟨rfl, rfl, rfl, ?_⟩
  decide

/-- C7 (amended): `CurrentSize()` is the length of the stored contents and
`Size()` the expected size, and a layer completing the Writing→Complete
transition satisfies `CurrentSize() == Size() > 0` provided its writer
recorded a positive expected size and wrote exactly that many bytes
before `Close` (as the pull flow verifies); `Close` itself only clears
the writing flag. -/
theorem C7_completed_layer_sizes (ml : MemoryLayer)
    (hfull : ml.currentSize = ml.size) (hpos : 0 < ml.size) :
    ml.close.currentSize = ml.close.size
  ∧ 0 < ml.close.size
  ∧ ml.close.writing = false
  ∧ ml.currentSize = ((ml.contents.getD []).length : Int)
  ∧ ml.size = ml.expectedSize := by
  exact ⟨hfull, hpos, rfl, rfl, rfl⟩

/-- C7 witness: a layer whose writer set expected size 1 and wrote one
byte satisfies `CurrentSize() == Size() > 0` after `Close`. -/
theorem C7_completed_layer_sizes_witness :
    c7demoLayer.close.currentSize = c7demoLayer.close.size
  ∧ 0 < c7demoLayer.close.size
  ∧ c7demoLayer.close.writing = false
  ∧ c7demoLayer.currentSize = ((c7demoLayer.contents.getD []).length : Int)
  ∧ c7demoLayer.size = c7demoLayer.expectedSize :=
  C7_completed_layer_sizes c7demoLayer (by decide) (by decide)

/-- C10: `SetSize` succeeds exactly while the layer's writing flag is
set; after `Close` has cleared the flag every `SetSize` call returns an
error and leaves the layer — in particular its expected size —
unchanged. -/
theorem C10_setSize_after_close_fails (ml : MemoryLayer) (sz : Int) :
    (((ml.setSize sz).1 = .ok ()) ↔ ml.writing = true)
  ∧ ml.close.setSize sz = (.error .closedForWriting, ml.close)
  ∧ ((ml.close.setSize sz).2).expectedSize = ml.expectedSize := by
  cases hw : ml.writing <;>
    simp [MemoryLayer.setSize, MemoryLayer.close, hw]

/-- C8: `pullLayer` returns nil without starting any byte transfer when
the `Writer()` request yields `ErrLayerAlreadyExists`; on `ErrLayerLocked`
it calls `Wait()` on the layer and returns nil; any other `Writer()` error
is returned as `pullLayer`'s result; only a granted writer starts the
transfer, whose result it returns. -/
theorem C8_pullLayer_sentinel_routing {ε ω : Type} (transfer : ω → Option ε)
    (e : ε) (w : ω) :
    pullLayer (.ok ()) .alreadyExists transfer =
      { result := none, waited := false, transferStarted := false }
  ∧ pullLayer (.ok ()) .locked transfer =
      { result := none, waited := true, transferStarted := false }
  ∧ pullLayer (.ok ()) (.err e) transfer =
      { result := some e, waited := false, transferStarted := false }
  ∧ pullLayer (.ok ()) (.ok w) transfer =
      { result := transfer w, waited := false, transferStarted := true } :=
  ⟨rfl, rfl, rfl, rfl⟩

/-- The transfer loop only ever produces a per-layer error, a
`WriteManifest` error or success — never one of the two manifest-shape
errors. -/
theorem pullGo_result_shape {ε : Type} (res : Nat → Option ε) (n : Nat)
    (wm : Option ε) :
    ∀ steps i sp,
      (pullGo res n wm i sp steps).result ≠ some .historyLengthMismatch
    ∧ (pullGo res n wm i sp steps).result ≠ some .noLayers := by
  intro steps
  induction steps with
  | zero =>
    intro i sp
    cases wm <;> simp [pullGo]
  | succ k ih =>
    intro i sp
    unfold pullGo
    split_ifs with h1 h2 h3
    · cases hr : res (i - simultaneousLayerPullWindow) with
      | none => simpa [hr] using ih (i + 1) (sp + 1)
      | some e => simp [hr]
    · cases hr : res (i - simultaneousLayerPullWindow) with
      | none => simpa [hr] using ih (i + 1) sp
      | some e => simp [hr]
    · exact ih (i + 1) (sp + 1)
    · exact ih (i + 1) sp

/-- C9: `Pull` returns the fatal manifest-shape error without spawning
any layer transfer (and without writing the manifest) when the fetched
manifest has differing `FSLayers`/`History` lengths or zero layers; a
manifest with equal positive lengths passes the validation and enters the
windowed transfer loop, whose result is never a shape error. -/
theorem C9_pull_manifest_validation {ε : Type} (m : SignedManifest)
    (res : Nat → Option ε) (wm : Option ε) :
    (m.fsLayers.length ≠ m.history.length →
      pull m res wm =
        { result := some .historyLengthMismatch, cancelClosed := false
          manifestWritten := false, spawned := 0 })
  ∧ (m.fsLayers.length = m.history.length → m.fsLayers.length = 0 →
      pull m res wm =
        { result := some .noLayers, cancelClosed := false
          manifestWritten := false, spawned := 0 })
  ∧ (m.fsLayers.length = m.history.length → 0 < m.fsLayers.length →
      pull m res wm =
        pullGo res m.fsLayers.length wm 0 0
          (m.fsLayers.length + simultaneousLayerPullWindow)
    ∧ (pull m res wm).result ≠ some .historyLengthMismatch
    ∧ (pull m res wm).result ≠ some .noLayers) := by
  refine ⟨?_, ?_, ?_⟩
  · intro hne
    simp [pull, hne]
  · intro heq hzero
    simp only [pull]
    rw [if_neg (by omega), if_pos hzero]
  · intro heq hpos
    have hne : m.fsLayers.length ≠ 0 := Nat.pos_iff_ne_zero.mp hpos
    have hp : pull m res wm =
        pullGo res m.fsLayers.length wm 0 0
          (m.fsLayers.length + simultaneousLayerPullWindow) := by
      simp only [pull]
      rw [if_neg (by omega), if_neg hne]
    refine ⟨hp, ?_, ?_⟩ <;> rw [hp]
    · exact (pullGo_result_shape res m.fsLayers.length wm _ 0 0).1
    · exact (pullGo_result_shape res m.fsLayers.length wm _ 0 0).2

/-- In the sliding-window loop with `j` the lowest-indexed failing layer,
the scheduler — which receives results in strictly increasing index
order — aborts with exactly layer `j`'s error, closes the cancellation
channel and never reaches the manifest write, from any loop position that
has not yet consumed index `j`. -/
theorem pullGo_first_error {ε : Type} (res : Nat → Option ε) (n : Nat)
    (wm : Option ε) (j : Nat) (e : ε)
    (hj : j < n) (hres : res j = some e) (hmin : ∀ k, k < j → res k = none) :
    ∀ steps i sp, i + steps = n + simultaneousLayerPullWindow →
      i ≤ j + simultaneousLayerPullWindow →
      (pullGo res n wm i sp steps).result = some (.layer e)
    ∧ (pullGo res n wm i sp steps).cancelClosed = true
    ∧ (pullGo res n wm i sp steps).manifestWritten = false := by
  intro steps
  induction steps with
  | zero =>
    intro i sp htot hle
    exact absurd hj (by omega)
  | succ k ih =>
    intro i sp htot hle
    unfold pullGo
    by_cases h1 : simultaneousLayerPullWindow ≤ i
    · rw [if_pos h1]
      by_cases h2 : i - simultaneousLayerPullWindow = j
      · rw [h2, hres]
        exact ⟨rfl, rfl, rfl⟩
      · have hlt : i - simultaneousLayerPullWindow < j := by omega
        rw [hmin _ hlt]
        by_cases h3 : i < n
        · rw [if_pos h3]
          exact ih (i + 1) (sp + 1) (by omega) (by omega)
        · rw [if_neg h3]
          exact ih (i + 1) sp (by omega) (by omega)
    · rw [if_neg h1]
      by_cases h3 : i < n
      · rw [if_pos h3]
        exact ih (i + 1) (sp + 1) (by omega) (by omega)
      · rw [if_neg h3]
        exact ih (i + 1) sp (by omega) (by omega)

/-- C1: when some layer's `pullLayer` result is an error, `Pull` returns
the error of the lowest-indexed failing layer (results being consumed in
strictly increasing index order), closes the cancellation channel and
does not call `ObjectStore.WriteManifest` before returning. -/
theorem C1_pull_first_error_wins {ε : Type} (m : SignedManifest)
    (res : Nat → Option ε) (wm : Option ε) (j : Nat) (e : ε)
    (hlen : m.fsLayers.length = m.history.length)
    (hj : j < m.fsLayers.length)
    (hres : res j = some e)
    (hmin : ∀ k, k < j → res k = none) :
    (pull m res wm).result = some (.layer e)
  ∧ (pull m res wm).cancelClosed = true
  ∧ (pull m res wm).manifestWritten = false := by
  have hne : m.fsLayers.length ≠ 0 := by omega
  have hp : pull m res wm =
      pullGo res m.fsLayers.length wm 0 0
        (m.fsLayers.length + simultaneousLayerPullWindow) := by
    simp only [pull]
    rw [if_neg (by omega), if_neg hne]
  rw [hp]
  exact pullGo_first_error res m.fsLayers.length wm j e hj hres hmin
    (m.fsLayers.length + simultaneousLayerPullWindow) 0 0 (by omega) (by omega)

/-- C1 witness: a two-layer manifest whose layer 0 fails with error `7`:
`Pull` returns that error, the cancellation channel is closed, the
manifest is not written. -/
theorem C1_pull_first_error_wins_witness :
    (pull c1manifest c1res none).result = some (.layer 7)
  ∧ (pull c1manifest c1res none).cancelClosed = true
  ∧ (pull c1manifest c1res none).manifestWritten = false :=
  C1_pull_first_error_wins c1manifest c1res none 0 7 rfl (by decide) rfl
    (fun k hk => absurd hk (Nat.not_lt_zero k))

/-- Setting a key makes its value readable. -/
theorem hGet_hSet_same (h : Headers) (k v : String) : hGet (hSet h k v) k = v := by
  simp [hGet, hSet, List.find?_cons]

/-- Setting a key leaves every other key unchanged. -/
theorem hGet_hSet_ne (h : Headers) (k k' v : String) (hne : k' ≠ k) :
    hGet (hSet h k v) k' = hGet h k' := by
  simp [hGet, hSet, List.find?_cons, hne.symm]

/-- C6 counterexample: a prior handler set `ETag` to "prior"; the
streaming fallback of `ServeBlob` overwrites it with the digest
unconditionally (and likewise `Cache-Control`), so the claim that each of
the five headers is set only if absent fails. -/
theorem C6_etag_overwritten :
    hGet [("ETag", "prior")] "ETag" = "prior"
  ∧ hGet (serveBlobFallbackHeaders c6desc [("ETag", "prior")]) "ETag" = "sha256:d"
  ∧ "sha256:d" ≠ "prior" := by
  refine ⟨rfl, ?_, by decide⟩
  rfl

/-- `setIfAbsent` writes the value exactly when the key was absent. -/
theorem hGet_setIfAbsent_same (h : Headers) (k v : String) :
    hGet (setIfAbsent h k v) k = if hGet h k = "" then v else hGet h k := by
  unfold setIfAbsent
  split_ifs with hc <;> simp [hGet_hSet_same]

/-- `setIfAbsent` leaves every other key unchanged. -/
theorem hGet_setIfAbsent_ne (h : Headers) (k k' v : String) (hne : k' ≠ k) :
    hGet (setIfAbsent h k v) k' = hGet h k' := by
  unfold setIfAbsent
  split_ifs with hc <;> simp [hGet_hSet_ne _ _ _ _ hne]

/-- C6 (amended): in the streaming fallback taken when `URLFor` yields
`ErrUnsupportedMethod`, `ETag` and `Cache-Control` are set
unconditionally (overwriting any prior value), while
`Docker-Content-Digest`, `Content-Type` and `Content-Length` are each set
only if not already present; prior values of those three are preserved
unchanged. -/
theorem C6_fallback_headers (desc : Descriptor) (h : Headers) :
    hGet (serveBlobFallbackHeaders desc h) "ETag" = desc.digest
  ∧ hGet (serveBlobFallbackHeaders desc h) "Cache-Control" = "max-age=31536000"
  ∧ hGet (serveBlobFallbackHeaders desc h) "Docker-Content-Digest" =
      (if hGet h "Docker-Content-Digest" = "" then desc.digest
       else hGet h "Docker-Content-Digest")
  ∧ hGet (serveBlobFallbackHeaders desc h) "Content-Type" =
      (if hGet h "Content-Type" = "" then desc.mediaType
       else hGet h "Content-Type")
  ∧ hGet (serveBlobFallbackHeaders desc h) "Content-Length" =
      (if hGet h "Content-Length" = "" then toString desc.length
       else hGet h "Content-Length") := by
  have hmax : ("max-age=" ++ toString blobCacheControlMaxAgeSeconds : String) =
      "max-age=31536000" := by decide
  unfold serveBlobFallbackHeaders
  refine ⟨?_, ?_, ?_, ?_, ?_⟩ <;>
    simp [hGet_setIfAbsent_same, hGet_setIfAbsent_ne, hGet_hSet_same,
      hGet_hSet_ne, hmax]
